import Mathlib

/-!
Shallow embedding of `src/stable_baselines3/common/ofenet.py` (OFENet: the
online feature-extraction network, its layer-width planner, its feature
extraction API and its auxiliary-task train/test procedures).

Modelling conventions:
* A tensor of shape (batch, width) is a `Batch := List (List ℚ)`: a list of
  rows, each row a flat feature vector.  Real floats are modelled by ℚ; a
  float computation that produces a non-finite value (NaN/inf, from a zero
  denominator) is modelled by `Option ℚ` being `none`.
* A dict observation (`TensorDict`) is an association list `Obs`, ordered
  like the observation space's key order; each sub-field is already stored
  row-flattened, which is exactly what the per-key `nn.Flatten` produces.
* `nn.Module` train/eval mode is explicit state: the `OFENet` structure
  carries one boolean mode flag per branch, and the methods that mutate the
  mode return the updated network (explicit state passing).
* Python exceptions (the planner's failed `assert`, the unbound
  `feature_loss` on an unrecognized `aux_task`) are `Except String`.
* Device placement (`.to(device)`, `.cpu()`, `.detach()`) are no-ops for
  values and are dropped; the Adam optimizer step in `train_ofe` mutates
  parameters through autodifferentiation, which is outside this embedding:
  `train_ofe` is modelled up to and including the loss computation and the
  `self.mse_train` write, the point that decides every claim about it.
-/

/-- A single flat feature row. -/
abbrev Vec := List ℚ

/-- A (batch, width) tensor: a list of rows. -/
abbrev Batch := List Vec

/-- A dict observation: ordered (key, sub-tensor) pairs, sub-fields already
row-flattened. -/
abbrev Obs := List (String × Batch)

/-- Elementwise subtraction of two equally shaped batches (`target - predicted`). -/
def bsub (a b : Batch) : Batch :=
  List.zipWith (fun r s => List.zipWith (fun x y => x - y) r s) a b

/-- Elementwise absolute value (`th.abs`). -/
def babs (a : Batch) : Batch := a.map (fun r => r.map (fun x => |x|))

/-- Elementwise square (`** 2`). -/
def bsq (a : Batch) : Batch := a.map (fun r => r.map (fun x => x * x))

/-- Add a scalar to every element (`target + self.eps`). -/
def baddc (a : Batch) (c : ℚ) : Batch := a.map (fun r => r.map (fun x => x + c))

/-- Concatenation along the feature axis (`th.cat([...], dim=1)`). -/
def catFeatures (a b : Batch) : Batch := List.zipWith (fun r s => r ++ s) a b

/-- Row truncation to the first `d` features (`[:, :target_dim]`). -/
def btrunc (a : Batch) (d : ℕ) : Batch := a.map (fun r => r.take d)

/-- Number of scalar elements of a batch tensor. -/
def tcount (a : Batch) : ℕ := (a.map List.length).sum

/-- Sum of all scalar elements of a batch tensor. -/
def tsum2 (a : Batch) : ℚ := (a.map List.sum).sum

/-- Checked float division: a zero denominator yields NaN/inf in IEEE floats,
modelled as `none`. -/
def fdiv (a b : ℚ) : Option ℚ := if b = 0 then none else some (a / b)

/-- `th.mean` over all elements: sum divided by element count (NaN on an
empty tensor). -/
def tmean (a : Batch) : Option ℚ := fdiv (tsum2 a) (tcount a)

/-- Elementwise checked division of one row by another. -/
def vdivE : Vec → Vec → Option Vec
  | a :: as, b :: bs => (fdiv a b).bind fun q => (vdivE as bs).map (fun v => q :: v)
  | _, _ => some []

/-- Elementwise checked division of two equally shaped batches; `none` as
soon as any element's denominator is zero (the NaN would poison every metric
mean taken over the result). -/
def bdivE : Batch → Batch → Option Batch
  | a :: as, b :: bs => (vdivE a b).bind fun q => (bdivE as bs).map (fun v => q :: v)
  | _, _ => some []

/-- Modelled from the spec: `DensenetBlock`
(`stable_baselines3/common/blocks.py` is not under src/).  Per §4.3 a growth
block maps an input vector of width W to an output of width
`W + units_per_layer` by concatenating a learned, possibly
mode-dependent (batch-statistics normalization is disabled in inference
mode) transformed slice to the original input.  The learned transform is an
abstract function of the training-mode flag and the input row; the field
`transform_len` is the block's width contract. -/
structure DensenetBlock where
  units_per_layer : ℕ
  transform : Bool → Vec → Vec
  transform_len : ∀ m x, (transform m x).length = units_per_layer

/-- One growth-block application to a row: concatenate the transformed slice. -/
def DensenetBlock.fwd (b : DensenetBlock) (m : Bool) (x : Vec) : Vec :=
  x ++ b.transform m x

/-- A branch (`nn.Sequential` of growth blocks) applied to a row, with the
branch's current training-mode flag `m`. -/
def blocksFwd (bs : List DensenetBlock) (m : Bool) (x : Vec) : Vec :=
  bs.foldl (fun v b => b.fwd m v) x

/-- A branch applied to a whole batch. -/
def blocksFwdBatch (bs : List DensenetBlock) (m : Bool) (xs : Batch) : Batch :=
  xs.map (blocksFwd bs m)

/-- A materialized linear layer (`nn.LazyLinear` after its first use):
`dim_output` weight rows and a bias vector. -/
structure Linear where
  weight : List Vec
  bias : Vec

/-- Dot product of two rows. -/
def dot (a b : Vec) : ℚ := (List.zipWith (fun x y => x * y) a b).sum

/-- Linear layer on one row: `W x + b`. -/
def Linear.fwd (l : Linear) (x : Vec) : Vec :=
  List.zipWith (fun w c => dot w x + c) l.weight l.bias

/-- `DictExtractor.forward`: flatten each sub-field (rows are stored
pre-flattened) and concatenate along the feature axis in key order. -/
def dictExtract : Obs → Batch
  | [] => []
  | (_, b) :: rest => rest.foldl (fun acc kv => catFeatures acc kv.2) b

/-- `calculate_layer_units`: asserts the budget divides evenly, then splits
it into `num_layers` equal per-layer widths for both branches.  A failed
Python `assert` is `AssertionError`; `num_layers = 0` makes the `%` itself
raise `ZeroDivisionError`. -/
def calculate_layer_units (state_dim action_dim total_units num_layers : ℕ) :
    Except String (List ℕ × List ℕ) :=
  if num_layers = 0 then .error "ZeroDivisionError"
  else if total_units % num_layers = 0 then
    .ok (List.replicate num_layers (total_units / num_layers),
         List.replicate num_layers (total_units / num_layers))
  else .error "AssertionError"

/-- The six-metric snapshot computed by one `test_ofe` branch, in source
order; each metric is `none` when its float computation is NaN/inf. -/
structure Metrics where
  mae : Option ℚ
  mae_percent : Option ℚ
  mape : Option ℚ
  mse : Option ℚ
  mse_percent : Option ℚ
  mspe : Option ℚ

/-- The ordered array `test_ofe` returns:
`np.array([mae, mae_percent, mape, mse, mse_percent, mspe])`. -/
def Metrics.toList (m : Metrics) : List (Option ℚ) :=
  [m.mae, m.mae_percent, m.mape, m.mse, m.mse_percent, m.mspe]

/-- The metric computation shared verbatim (up to the name of the
target/prediction pair) by the three `test_ofe` branches:
`mae = mean |t - p|`, `mae_percent = |mae / mean t|`,
`mape = mean |(t - p) / (t + eps)|`, `mse = mean (t - p)^2`,
`mse_percent = mse / mean t^2`, `mspe = mean ((t - p) / (t + eps))^2`.
The epsilon appears only in the `mape` and `mspe` denominators. -/
def sixMetrics (eps : ℚ) (target predicted : Batch) : Metrics :=
  let mae := tmean (babs (bsub target predicted))
  { mae := mae
    mae_percent := do
      let m ← mae
      let t ← tmean target
      let r ← fdiv m t
      pure |r|
    mape := (bdivE (bsub target predicted) (baddc target eps)).bind
      (fun q => tmean (babs q))
    mse := tmean (bsq (bsub target predicted))
    mse_percent := do
      let m ← tmean (bsq (bsub target predicted))
      let t ← tmean (bsq target)
      fdiv m t
    mspe := (bdivE (bsub target predicted) (baddc target eps)).bind
      (fun q => tmean (bsq q)) }

/-- The `OFENet` module state: construction parameters, the two branches'
blocks (their learned transforms are the parameters of the growth blocks),
the output projection's parameters, the per-branch training-mode flags
(`nn.Module.train/eval` state) and the retained metric snapshot fields. -/
structure OFENet where
  dim_state : ℕ
  dim_action : ℕ
  dim_output : ℕ
  total_units : ℕ
  num_layers : ℕ
  aux_task : String
  skip_action_branch : Bool
  state_blocks : List DensenetBlock
  action_blocks : List DensenetBlock
  out_layer : Linear
  state_model_training : Bool
  action_model_training : Bool
  eps : ℚ
  mse_train : Option ℚ
  mae_test : Option ℚ
  mae_percent_test : Option ℚ
  mape_test : Option ℚ
  mse_test : Option ℚ
  mse_percent_test : Option ℚ
  mspe_test : Option ℚ

/-- `self._dim_state_features = total_units + dim_state` (line 78). -/
def OFENet.dim_state_features (net : OFENet) : ℕ :=
  net.total_units + net.dim_state

/-- `self._dim_state_action_features = total_units + dim_state + dim_action
+ total_units` (line 79). -/
def OFENet.dim_state_action_features (net : OFENet) : ℕ :=
  net.total_units + net.dim_state + net.dim_action + net.total_units

/-- `OFENet.__init__`: plan the per-layer widths (propagating the planner's
failure), build both branches from the external growth-block factory
`mkBlock` (spec §6: "a Growth Block factory (given a per-layer width,
returns a block conforming to §4.3's contract)"), and start in training
mode with zeroed metric snapshots.  The seed, device and observation space
only affect parameter initialization, placement and the stateless per-key
`nn.Flatten` extractors, none of which carry model state here; `out0` is
the lazily materialized output projection. -/
def OFENet.init (dim_state dim_action dim_output total_units num_layers : ℕ)
    (aux_task : String) (skip_action_branch : Bool)
    (mkBlock : ℕ → DensenetBlock) (out0 : Linear) : Except String OFENet := do
  let (state_layer_units, action_layer_units) ←
    calculate_layer_units dim_state dim_action total_units num_layers
  pure
    { dim_state := dim_state
      dim_action := dim_action
      dim_output := dim_output
      total_units := total_units
      num_layers := num_layers
      aux_task := aux_task
      skip_action_branch := skip_action_branch
      state_blocks := state_layer_units.map mkBlock
      action_blocks := action_layer_units.map mkBlock
      out_layer := out0
      state_model_training := true
      action_model_training := true
      eps := 1 / 10 ^ 10
      mse_train := some 0
      mae_test := some 0
      mae_percent_test := some 0
      mape_test := some 0
      mse_test := some 0
      mse_percent_test := some 0
      mspe_test := some 0 }

/-- `OFENet.forward(inputs)`: flatten the dict observation, run the state
branch in its current mode, unless the action branch is skipped concatenate
the actions and run the action branch in its current mode, then apply the
output projection. -/
def OFENet.forward (net : OFENet) (states : Obs) (actions : Batch) : Batch :=
  let features := blocksFwdBatch net.state_blocks net.state_model_training
    (dictExtract states)
  let features :=
    if net.skip_action_branch then features
    else blocksFwdBatch net.action_blocks net.action_model_training
      (catFeatures features actions)
  features.map net.out_layer.fwd

/-- `OFENet.features_from_states`: flatten, put the state branch in eval
mode, run it, then unconditionally put it back in train mode.  Returns the
features and the mutated module state. -/
def OFENet.features_from_states (net : OFENet) (states : Obs) :
    Batch × OFENet :=
  let features := dictExtract states
  let net1 := { net with state_model_training := false }
  let features := blocksFwdBatch net1.state_blocks false features
  let net2 := { net1 with state_model_training := true }
  (features, net2)

/-- `OFENet.features_from_states_actions`: put the action branch in eval
mode, get the state features (which toggles the state branch), concatenate
the actions, run the action branch (in eval mode), then unconditionally put
the action branch back in train mode. -/
def OFENet.features_from_states_actions (net : OFENet) (states : Obs)
    (actions : Batch) : Batch × OFENet :=
  let net1 := { net with action_model_training := false }
  let (state_features, net2) := net1.features_from_states states
  let features := catFeatures state_features actions
  let features := blocksFwdBatch net2.action_blocks false features
  let net3 := { net2 with action_model_training := true }
  (features, net3)

/-- `OFENet.train_ofe` up to the loss: the forward pass runs in the
branches' current modes; the loss is the task's mean-squared error, written
to `self.mse_train`.  On an unrecognized `aux_task` no branch binds
`feature_loss` and the statement `self.mse_train = feature_loss` raises
`UnboundLocalError`.  The subsequent `backward` / Adam `optimizer.step`
mutate the parameters through autodifferentiation, external to this
embedding; the returned loss and module state are those right after the
`self.mse_train` write. -/
def OFENet.train_ofe (net : OFENet) (states : Obs) (actions : Batch)
    (next_states : Obs) (rewards : Batch) (dones : Batch) :
    Except String (Option ℚ × OFENet) :=
  let target_dim := net.dim_output
  if net.aux_task = "fsp" then
    let predicted_states := net.forward states actions
    let target_states := btrunc (dictExtract next_states) target_dim
    let feature_loss := tmean (bsq (bsub target_states predicted_states))
    .ok (feature_loss, { net with mse_train := feature_loss })
  else if net.aux_task = "fsdp" then
    let predicted_states_diff := net.forward states actions
    let target_states := btrunc (dictExtract next_states) target_dim
    let target_states_diff :=
      bsub target_states (btrunc (dictExtract states) target_dim)
    let feature_loss := tmean (bsq (bsub target_states_diff predicted_states_diff))
    .ok (feature_loss, { net with mse_train := feature_loss })
  else if net.aux_task = "rwp" then
    let target_rewards := rewards
    let predicted_rewards := net.forward states actions
    let feature_loss := tmean (bsq (bsub target_rewards predicted_rewards))
    .ok (feature_loss, { net with mse_train := feature_loss })
  else .error "UnboundLocalError"

/-- `OFENet.test_ofe`: put both branches in eval mode, compute (under
`th.no_grad`) the task's target/prediction pair and the six metrics, store
them in the test snapshot fields, put both branches back in train mode and
return the ordered six-element array.  An unrecognized `aux_task` leaves
`mae` unbound and the statement `self.mae_test = mae` raises
`UnboundLocalError` (with the branches left in eval mode). -/
def OFENet.test_ofe (net : OFENet) (states : Obs) (actions : Batch)
    (next_states : Obs) (rewards : Batch) (dones : Batch) :
    Except String (List (Option ℚ) × OFENet) :=
  let target_dim := net.dim_output
  let netE := { net with state_model_training := false,
                         action_model_training := false }
  let finish : Metrics → Except String (List (Option ℚ) × OFENet) := fun m =>
    Except.ok (m.toList,
      { netE with mae_test := m.mae
                  mae_percent_test := m.mae_percent
                  mape_test := m.mape
                  mse_test := m.mse
                  mse_percent_test := m.mse_percent
                  mspe_test := m.mspe
                  state_model_training := true
                  action_model_training := true })
  if net.aux_task = "fsp" then
    let predicted_states := netE.forward states actions
    let target_states := btrunc (dictExtract next_states) target_dim
    finish (sixMetrics net.eps target_states predicted_states)
  else if net.aux_task = "fsdp" then
    let predicted_states_diff := netE.forward states actions
    let target_states := btrunc (dictExtract next_states) target_dim
    let target_states_diff :=
      bsub target_states (btrunc (dictExtract states) target_dim)
    finish (sixMetrics net.eps target_states_diff predicted_states_diff)
  else if net.aux_task = "rwp" then
    let target_rewards := rewards
    let predicted_rewards := netE.forward states actions
    finish (sixMetrics net.eps target_rewards predicted_rewards)
  else .error "UnboundLocalError"

theorem calculate_layer_units_smoke :
    calculate_layer_units 5 7 12 3 = .ok ([4, 4, 4], [4, 4, 4]) := rfl

/-! ### Concrete instances used to evaluate the model -/

/-- A growth block whose learned transform is the zero map: the simplest
inhabitant of the factory contract (its slice width equals the requested
per-layer width). -/
def constBlock (u : ℕ) : DensenetBlock where
  units_per_layer := u
  transform := fun _ _ => List.replicate u 0
  transform_len := fun _ _ => List.length_replicate u 0

/-- A growth block whose transform depends on the training-mode flag, as a
batch-statistics normalization does (the source comment on
`features_from_states` notes that `.eval()` disables batchnorm). -/
def modeBlock : DensenetBlock where
  units_per_layer := 1
  transform := fun m _ => [if m then 0 else 1]
  transform_len := fun _ _ => rfl

/-- A small concrete network used as the base of the evaluation instances:
both branches empty, identity-like 1x1 output projection, train mode. -/
def baseNet : OFENet where
  dim_state := 1
  dim_action := 1
  dim_output := 1
  total_units := 0
  num_layers := 0
  aux_task := "fsp"
  skip_action_branch := true
  state_blocks := []
  action_blocks := []
  out_layer := ⟨[[1]], [0]⟩
  state_model_training := true
  action_model_training := true
  eps := 1 / 10 ^ 10
  mse_train := some 0
  mae_test := some 0
  mae_percent_test := some 0
  mape_test := some 0
  mse_test := some 0
  mse_percent_test := some 0
  mspe_test := some 0

/-- A one-key, one-row observation batch. -/
def exObs : Obs := [("o", [[1]])]

/-! ### Helper lemmas about the embedding -/

/-- A batch of the same shape as `t` with every element zeroed. -/
def bzero (t : Batch) : Batch := t.map (fun r => r.map (fun _ => 0))

theorem zipWith_sub_self (r : Vec) :
    List.zipWith (fun x y => x - y) r r = r.map (fun _ => (0 : ℚ)) := by
  induction r with
  | nil => rfl
  | cons a r ih => simp [ih]

theorem bsub_self (t : Batch) : bsub t t = bzero t := by
  induction t with
  | nil => rfl
  | cons r t ih =>
      simp only [bsub, bzero] at ih
      simp [bsub, bzero, zipWith_sub_self, ih]

theorem babs_bzero (t : Batch) : babs (bzero t) = bzero t := by
  simp [babs, bzero]

theorem bsq_bzero (t : Batch) : bsq (bzero t) = bzero t := by
  simp [bsq, bzero]

theorem tsum2_bzero (t : Batch) : tsum2 (bzero t) = 0 := by
  simp [tsum2, bzero, Function.comp_def, List.sum_replicate]

theorem tcount_bzero (t : Batch) : tcount (bzero t) = tcount t := by
  simp [tcount, bzero, Function.comp_def]

theorem tmean_bzero (t : Batch) (h : tcount t ≠ 0) : tmean (bzero t) = some 0 := by
  have hc : ((tcount t : ℚ)) ≠ 0 := by exact_mod_cast h
  simp [tmean, tsum2_bzero, tcount_bzero, fdiv, hc]

theorem tcount_ne_of_tmean {t : Batch} {c : ℚ} (h : tmean t = some c) :
    tcount t ≠ 0 := by
  intro h0
  simp [tmean, fdiv, h0] at h

theorem vdivE_zero_row (r : Vec) (eps : ℚ) (h : ∀ x ∈ r, x + eps ≠ 0) :
    vdivE (r.map (fun _ => 0)) (r.map (fun x => x + eps)) =
      some (r.map (fun _ => 0)) := by
  induction r with
  | nil => rfl
  | cons a r ih =>
      have ha : a + eps ≠ 0 := h a (List.mem_cons_self a r)
      have hr := ih (fun x hx => h x (List.mem_cons_of_mem a hx))
      simp only [List.map_cons, vdivE, fdiv, if_neg ha, hr, zero_div,
        Option.bind_some, Option.map_some, Option.some.injEq]
      rfl

theorem bdivE_zero (t : Batch) (eps : ℚ)
    (h : ∀ row ∈ t, ∀ x ∈ row, x + eps ≠ 0) :
    bdivE (bzero t) (baddc t eps) = some (bzero t) := by
  induction t with
  | nil => rfl
  | cons r t ih =>
      have hr := vdivE_zero_row r eps (h r (List.mem_cons_self r t))
      have ht := ih (fun row hrow => h row (List.mem_cons_of_mem r hrow))
      simp [bdivE, bzero, baddc, hr] at *
      simp [bdivE, bzero, baddc, hr, ht]

/-! ### Claim theorems -/

theorem calc_layer_units_ok (state_dim action_dim total_units num_layers : ℕ)
    (hpos : 0 < num_layers) (hdvd : total_units % num_layers = 0) :
    calculate_layer_units state_dim action_dim total_units num_layers =
      .ok (List.replicate num_layers (total_units / num_layers),
           List.replicate num_layers (total_units / num_layers)) := by
  simp [calculate_layer_units, Nat.pos_iff_ne_zero.mp hpos, hdvd]

/-- C1: for every valid `(state_dim, action_dim, total_units, num_layers)`
with `total_units % num_layers = 0`, the layer-width planner returns two
sequences, each of length `num_layers`, every entry `total_units / num_layers`,
each summing to `total_units`; in particular for `total_units = 12`,
`num_layers = 3` it returns `([4,4,4], [4,4,4])`. -/
theorem C1_layer_width_planner (state_dim action_dim total_units num_layers : ℕ)
    (hpos : 0 < num_layers) (hdvd : total_units % num_layers = 0) :
    (∃ su au,
      calculate_layer_units state_dim action_dim total_units num_layers = .ok (su, au) ∧
      su.length = num_layers ∧ au.length = num_layers ∧
      (∀ x ∈ su, x = total_units / num_layers) ∧
      (∀ x ∈ au, x = total_units / num_layers) ∧
      su.sum = total_units ∧ au.sum = total_units) ∧
    calculate_layer_units state_dim action_dim 12 3 = .ok ([4, 4, 4], [4, 4, 4]) := by
  have hsum : (List.replicate num_layers (total_units / num_layers)).sum = total_units := by
    simp [List.sum_replicate, smul_eq_mul,
      Nat.mul_div_cancel' (Nat.dvd_of_mod_eq_zero hdvd)]
  refine ⟨⟨_, _, calc_layer_units_ok state_dim action_dim total_units num_layers hpos hdvd,
    ?_, ?_, ?_, ?_, hsum, hsum⟩, rfl⟩
  · simp
  · simp
  · exact fun x hx => List.eq_of_mem_replicate hx
  · exact fun x hx => List.eq_of_mem_replicate hx

theorem C1_layer_width_planner_witness :
    (∃ su au, calculate_layer_units 5 7 12 3 = .ok (su, au) ∧
      su.length = 3 ∧ au.length = 3 ∧
      (∀ x ∈ su, x = 12 / 3) ∧ (∀ x ∈ au, x = 12 / 3) ∧
      su.sum = 12 ∧ au.sum = 12) ∧
    calculate_layer_units 5 7 12 3 = .ok ([4, 4, 4], [4, 4, 4]) :=
  C1_layer_width_planner 5 7 12 3 (by decide) (by decide)

theorem calc_layer_units_err (state_dim action_dim total_units num_layers : ℕ)
    (h : total_units % num_layers ≠ 0) :
    calculate_layer_units state_dim action_dim total_units num_layers =
      .error (if num_layers = 0 then "ZeroDivisionError" else "AssertionError") := by
  by_cases hnl : num_layers = 0
  · simp [calculate_layer_units, hnl]
  · simp [calculate_layer_units, hnl, h]

theorem init_err (state_dim action_dim dim_output total_units num_layers : ℕ)
    (aux_task : String) (skip : Bool) (mkBlock : ℕ → DensenetBlock) (out0 : Linear)
    (h : total_units % num_layers ≠ 0) :
    OFENet.init state_dim action_dim dim_output total_units num_layers
        aux_task skip mkBlock out0 =
      .error (if num_layers = 0 then "ZeroDivisionError" else "AssertionError") := by
  simp [OFENet.init, calc_layer_units_err state_dim action_dim total_units num_layers h]

/-- C6: whenever `total_units` is not evenly divisible by `num_layers`, the
layer-width planner raises instead of returning a plan, and `OFENet.init`
propagates the failure, so construction fails; in particular for
`total_units = 10`, `num_layers = 3`. -/
theorem C6_indivisible_budget_fails (state_dim action_dim total_units num_layers : ℕ)
    (h : total_units % num_layers ≠ 0) :
    (∃ e, calculate_layer_units state_dim action_dim total_units num_layers = .error e) ∧
    (∀ dim_output aux_task skip mkBlock out0, ∃ e,
      OFENet.init state_dim action_dim dim_output total_units num_layers
        aux_task skip mkBlock out0 = .error e) ∧
    (∃ e, calculate_layer_units state_dim action_dim 10 3 = .error e) ∧
    (∀ dim_output aux_task skip mkBlock out0, ∃ e,
      OFENet.init state_dim action_dim dim_output 10 3
        aux_task skip mkBlock out0 = .error e) := by
  have h10 : (10 : ℕ) % 3 ≠ 0 := by decide
  exact ⟨⟨_, calc_layer_units_err state_dim action_dim total_units num_layers h⟩,
    fun dim_output aux_task skip mkBlock out0 =>
      ⟨_, init_err state_dim action_dim dim_output total_units num_layers
        aux_task skip mkBlock out0 h⟩,
    ⟨_, calc_layer_units_err state_dim action_dim 10 3 h10⟩,
    fun dim_output aux_task skip mkBlock out0 =>
      ⟨_, init_err state_dim action_dim dim_output 10 3
        aux_task skip mkBlock out0 h10⟩⟩

theorem C6_indivisible_budget_fails_witness :
    ((10 : ℕ) % 3 ≠ 0) ∧
    ((∃ e, calculate_layer_units 1 1 10 3 = .error e) ∧
      (∀ dim_output aux_task skip mkBlock out0, ∃ e,
        OFENet.init 1 1 dim_output 10 3 aux_task skip mkBlock out0 = .error e) ∧
      (∃ e, calculate_layer_units 1 1 10 3 = .error e) ∧
      (∀ dim_output aux_task skip mkBlock out0, ∃ e,
        OFENet.init 1 1 dim_output 10 3 aux_task skip mkBlock out0 = .error e)) :=
  ⟨by decide, C6_indivisible_budget_fails 1 1 10 3 (by decide)⟩

/-- C4: the code does not validate `aux_task` at construction: building the
network with the unrecognized selector "xyz" succeeds, and the failure is
deferred to the first `train_ofe` (and `test_ofe`) call, which raises
`UnboundLocalError` — contradicting the spec's requirement that an
unrecognized auxiliary task be an `InvalidConfiguration` reported at
construction. -/
theorem C4_unrecognized_task_deferred :
    ∃ net, OFENet.init 1 1 1 0 1 "xyz" false constBlock ⟨[[1]], [0]⟩ = .ok net ∧
      net.train_ofe [("o", [[1]])] [[1]] [("o", [[1]])] [[1]] [[0]] =
        .error "UnboundLocalError" ∧
      net.test_ofe [("o", [[1]])] [[1]] [("o", [[1]])] [[1]] [[0]] =
        .error "UnboundLocalError" := by
  refine ⟨_, rfl, rfl, rfl⟩

/-- A network whose state branch the caller has put in eval mode before
calling the feature-extraction API. -/
def c5net : OFENet :=
  { baseNet with state_model_training := false, action_model_training := false }

/-- C5 counterexample: the mode in effect before the call is NOT restored.
`features_from_states` ends by unconditionally calling
`self.state_model.train()`, so a caller who had the state branch in eval
mode gets it back in train mode. -/
theorem C5_mode_not_restored_counterexample :
    (c5net.features_from_states exObs).2.state_model_training ≠
      c5net.state_model_training := by decide

/-- C5 amended: on normal return both feature-extraction methods leave the
touched branches in train mode unconditionally — the prior mode is restored
only when it was train mode (there is no exception-path restoration in the
code: the `train()` calls are straight-line statements, not `finally`
blocks). -/
theorem C5_train_mode_on_return (net : OFENet) (states : Obs) (actions : Batch) :
    (net.features_from_states states).2 =
      { net with state_model_training := true } ∧
    (net.features_from_states_actions states actions).2 =
      { net with state_model_training := true, action_model_training := true } :=
  ⟨rfl, rfl⟩

/-- C10: with `skip_action_branch = true` the training/testing forward pass
applies only the state branch and the output projection — its value is
independent of the actions input — while `features_from_states_actions`
still runs the action branch unconditionally: its features do not depend on
the flag at all. -/
theorem C10_skip_flag_ignored_by_feature_api (net : OFENet)
    (hskip : net.skip_action_branch = true)
    (states : Obs) (a1 a2 actions : Batch) :
    net.forward states a1 = net.forward states a2 ∧
    net.forward states a1 =
      (blocksFwdBatch net.state_blocks net.state_model_training
        (dictExtract states)).map net.out_layer.fwd ∧
    (({ net with skip_action_branch := false }).features_from_states_actions
        states actions).1 =
      (({ net with skip_action_branch := true }).features_from_states_actions
        states actions).1 ∧
    (net.features_from_states_actions states actions).1 =
      blocksFwdBatch net.action_blocks false
        (catFeatures (blocksFwdBatch net.state_blocks false (dictExtract states))
          actions) := by
  refine ⟨?_, ?_, ?_, rfl⟩
  · simp [OFENet.forward, hskip]
  · simp [OFENet.forward, hskip]
  · cases net
    simp_all [OFENet.features_from_states_actions, OFENet.features_from_states]

theorem C10_skip_flag_ignored_witness :
    baseNet.skip_action_branch = true ∧
    (baseNet.forward exObs [[2]] = baseNet.forward exObs [[3]] ∧
     baseNet.forward exObs [[2]] =
       (blocksFwdBatch baseNet.state_blocks baseNet.state_model_training
         (dictExtract exObs)).map baseNet.out_layer.fwd ∧
     (({ baseNet with skip_action_branch := false }).features_from_states_actions
         exObs [[2]]).1 =
       (({ baseNet with skip_action_branch := true }).features_from_states_actions
         exObs [[2]]).1 ∧
     (baseNet.features_from_states_actions exObs [[2]]).1 =
       blocksFwdBatch baseNet.action_blocks false
         (catFeatures (blocksFwdBatch baseNet.state_blocks false (dictExtract exObs))
           [[2]])) :=
  ⟨rfl, C10_skip_flag_ignored_by_feature_api baseNet rfl exObs [[2]] [[3]] [[2]]⟩

/-- The metric snapshot `test_ofe` computes for a recognized task: the
task's target/prediction pair fed to the shared six-metric computation,
with the forward pass run with both branches in eval mode. -/
def testMetrics (net : OFENet) (states : Obs) (actions : Batch)
    (next_states : Obs) (rewards : Batch) : Metrics :=
  let netE := { net with state_model_training := false,
                         action_model_training := false }
  if net.aux_task = "fsp" then
    sixMetrics net.eps (btrunc (dictExtract next_states) net.dim_output)
      (netE.forward states actions)
  else if net.aux_task = "fsdp" then
    sixMetrics net.eps
      (bsub (btrunc (dictExtract next_states) net.dim_output)
        (btrunc (dictExtract states) net.dim_output))
      (netE.forward states actions)
  else
    sixMetrics net.eps rewards (netE.forward states actions)

theorem test_ofe_ok (net : OFENet)
    (htask : net.aux_task = "fsp" ∨ net.aux_task = "fsdp" ∨ net.aux_task = "rwp")
    (states : Obs) (actions : Batch) (next_states : Obs) (rewards dones : Batch) :
    net.test_ofe states actions next_states rewards dones =
      .ok ((testMetrics net states actions next_states rewards).toList,
        { net with
            state_model_training := true
            action_model_training := true
            mae_test := (testMetrics net states actions next_states rewards).mae
            mae_percent_test := (testMetrics net states actions next_states rewards).mae_percent
            mape_test := (testMetrics net states actions next_states rewards).mape
            mse_test := (testMetrics net states actions next_states rewards).mse
            mse_percent_test := (testMetrics net states actions next_states rewards).mse_percent
            mspe_test := (testMetrics net states actions next_states rewards).mspe }) := by
  rcases htask with h | h | h <;>
    simp [OFENet.test_ofe, testMetrics, h]

/-- C3: for every input batch and every recognized auxiliary task, when the
network is in its normal training mode, `test_ofe` returns successfully and
the resulting module state agrees with the initial one on every parameter
(growth blocks and output projection), every mode flag, every configuration
field and the training-loss snapshot — only the six retained test-metric
snapshot fields are (re)written.  The `th.no_grad` scope (no gradient-graph
construction) has no observable counterpart in this embedding; the theorem
captures its observable consequence: no parameter changes. -/
theorem C3_test_ofe_frame (net : OFENet)
    (htask : net.aux_task = "fsp" ∨ net.aux_task = "fsdp" ∨ net.aux_task = "rwp")
    (hs : net.state_model_training = true) (ha : net.action_model_training = true)
    (states : Obs) (actions : Batch) (next_states : Obs) (rewards dones : Batch) :
    ∃ ms net2,
      net.test_ofe states actions next_states rewards dones = .ok (ms, net2) ∧
      net2.state_blocks = net.state_blocks ∧
      net2.action_blocks = net.action_blocks ∧
      net2.out_layer = net.out_layer ∧
      net2.state_model_training = net.state_model_training ∧
      net2.action_model_training = net.action_model_training ∧
      net2.dim_state = net.dim_state ∧
      net2.dim_action = net.dim_action ∧
      net2.dim_output = net.dim_output ∧
      net2.total_units = net.total_units ∧
      net2.num_layers = net.num_layers ∧
      net2.aux_task = net.aux_task ∧
      net2.skip_action_branch = net.skip_action_branch ∧
      net2.eps = net.eps ∧
      net2.mse_train = net.mse_train := by
  refine ⟨_, _, test_ofe_ok net htask states actions next_states rewards dones,
    rfl, rfl, rfl, hs.symm, ha.symm, rfl, rfl, rfl, rfl, rfl, rfl, rfl, rfl, rfl⟩

/-- A reward-prediction network in its normal training mode. -/
def c3net : OFENet := { baseNet with aux_task := "rwp" }

theorem C3_test_ofe_frame_witness :
    (c3net.aux_task = "fsp" ∨ c3net.aux_task = "fsdp" ∨ c3net.aux_task = "rwp") ∧
    c3net.state_model_training = true ∧ c3net.action_model_training = true ∧
    ∃ ms net2,
      c3net.test_ofe exObs [[1]] exObs [[1]] [[0]] = .ok (ms, net2) ∧
      net2.state_blocks = c3net.state_blocks ∧
      net2.action_blocks = c3net.action_blocks ∧
      net2.out_layer = c3net.out_layer ∧
      net2.state_model_training = c3net.state_model_training ∧
      net2.action_model_training = c3net.action_model_training ∧
      net2.dim_state = c3net.dim_state ∧
      net2.dim_action = c3net.dim_action ∧
      net2.dim_output = c3net.dim_output ∧
      net2.total_units = c3net.total_units ∧
      net2.num_layers = c3net.num_layers ∧
      net2.aux_task = c3net.aux_task ∧
      net2.skip_action_branch = c3net.skip_action_branch ∧
      net2.eps = c3net.eps ∧
      net2.mse_train = c3net.mse_train :=
  ⟨Or.inr (Or.inr rfl), rfl, rfl,
   C3_test_ofe_frame c3net (Or.inr (Or.inr rfl)) rfl rfl exObs [[1]] exObs [[1]] [[0]]⟩

/-- A future-state-prediction network with one mode-dependent growth block
(its transform emits 0 in train mode and 1 in eval mode, like a batch
normalization whose two modes see different statistics). -/
def c7net : OFENet :=
  { baseNet with aux_task := "fsp", state_blocks := [modeBlock],
                 out_layer := ⟨[[0, 1]], [0]⟩ }

/-- A one-key observation batch of one zero row. -/
def zObs : Obs := [("o", [[0]])]

/-- C7 counterexample: with a mode-dependent block, `train_ofe`'s forward
pass (train mode) and `test_ofe`'s forward pass (eval mode) produce
different predictions from identical inputs and identical parameters, so
`test_ofe`'s MSE metric (index 3) differs from the training loss. -/
theorem C7_mse_mismatch_counterexample :
    ∃ l net1 ms net2,
      c7net.train_ofe zObs [[0]] zObs [[0]] [[0]] = .ok (l, net1) ∧
      c7net.test_ofe zObs [[0]] zObs [[0]] [[0]] = .ok (ms, net2) ∧
      l = some 0 ∧ ms.get? 3 = some (some 1) ∧ ms.get? 3 ≠ some l := by
  refine ⟨_, _, _, _, rfl, rfl, ?_, ?_, ?_⟩ <;>
    norm_num [c7net, baseNet, modeBlock, OFENet.forward, zObs, dictExtract,
      blocksFwdBatch, blocksFwd, DensenetBlock.fwd, btrunc, bsub, bsq, babs, baddc,
      tmean, tsum2, tcount, fdiv, Linear.fwd, dot, sixMetrics, Metrics.toList,
      bdivE, vdivE, catFeatures]

theorem blocksFwd_cons (b : DensenetBlock) (bs : List DensenetBlock) (m : Bool)
    (x : Vec) : blocksFwd (b :: bs) m x = blocksFwd bs m (b.fwd m x) := rfl

theorem blocksFwd_mode_indep (bs : List DensenetBlock)
    (h : ∀ b ∈ bs, ∀ x, b.transform true x = b.transform false x)
    (m : Bool) (x : Vec) : blocksFwd bs m x = blocksFwd bs false x := by
  induction bs generalizing x with
  | nil => rfl
  | cons b bs ih =>
      rw [blocksFwd_cons, blocksFwd_cons]
      have hb : b.fwd m x = b.fwd false x := by
        cases m
        · rfl
        · simp [DensenetBlock.fwd, h b (List.mem_cons_self b bs) x]
      rw [hb]
      exact ih (fun b2 hb2 x2 => h b2 (List.mem_cons_of_mem b hb2) x2) _

theorem blocksFwdBatch_mode_indep (bs : List DensenetBlock)
    (h : ∀ b ∈ bs, ∀ x, b.transform true x = b.transform false x)
    (m : Bool) (xs : Batch) : blocksFwdBatch bs m xs = blocksFwdBatch bs false xs := by
  unfold blocksFwdBatch
  rw [funext (blocksFwd_mode_indep bs h m)]

theorem forward_mode_indep (net : OFENet)
    (hsb : ∀ b ∈ net.state_blocks, ∀ x, b.transform true x = b.transform false x)
    (hab : ∀ b ∈ net.action_blocks, ∀ x, b.transform true x = b.transform false x)
    (states : Obs) (actions : Batch) :
    net.forward states actions =
      ({ net with state_model_training := false,
                  action_model_training := false }).forward states actions := by
  simp only [OFENet.forward]
  rw [blocksFwdBatch_mode_indep net.state_blocks hsb net.state_model_training,
    blocksFwdBatch_mode_indep net.action_blocks hab net.action_model_training]

theorem Metrics.toList_get_three (m : Metrics) : m.toList.get? 3 = some m.mse := rfl

/-- The loss `train_ofe` computes for a recognized task: the task's
target/prediction pair fed to the mean-squared-error, with the forward pass
run in the branches' current modes. -/
def trainLoss (net : OFENet) (states : Obs) (actions : Batch)
    (next_states : Obs) (rewards : Batch) : Option ℚ :=
  if net.aux_task = "fsp" then
    tmean (bsq (bsub (btrunc (dictExtract next_states) net.dim_output)
      (net.forward states actions)))
  else if net.aux_task = "fsdp" then
    tmean (bsq (bsub
      (bsub (btrunc (dictExtract next_states) net.dim_output)
        (btrunc (dictExtract states) net.dim_output))
      (net.forward states actions)))
  else
    tmean (bsq (bsub rewards (net.forward states actions)))

theorem train_ofe_ok (net : OFENet)
    (htask : net.aux_task = "fsp" ∨ net.aux_task = "fsdp" ∨ net.aux_task = "rwp")
    (states : Obs) (actions : Batch) (next_states : Obs) (rewards dones : Batch) :
    net.train_ofe states actions next_states rewards dones =
      .ok (trainLoss net states actions next_states rewards,
        { net with mse_train := trainLoss net states actions next_states rewards }) := by
  rcases htask with h | h | h <;> simp [OFENet.train_ofe, trainLoss, h]

/-- C7 amended: `test_ofe`'s MSE metric (index 3) is computed by the same
mean-squared-error formula as `train_ofe`'s loss, on the same
target/prediction pair — but on a forward pass run with both branches in
eval mode, where `train_ofe` uses the current (train) mode.  The two agree
whenever the growth blocks' transforms do not depend on the mode flag (no
active batch-statistics normalization). -/
theorem C7_test_mse_equals_train_loss_mode_indep (net : OFENet)
    (hsb : ∀ b ∈ net.state_blocks, ∀ x, b.transform true x = b.transform false x)
    (hab : ∀ b ∈ net.action_blocks, ∀ x, b.transform true x = b.transform false x)
    (htask : net.aux_task = "fsp" ∨ net.aux_task = "fsdp" ∨ net.aux_task = "rwp")
    (states : Obs) (actions : Batch) (next_states : Obs) (rewards dones : Batch) :
    ∃ l net1 ms net2,
      net.train_ofe states actions next_states rewards dones = .ok (l, net1) ∧
      net.test_ofe states actions next_states rewards dones = .ok (ms, net2) ∧
      ms.get? 3 = some l := by
  have hfwd := forward_mode_indep net hsb hab states actions
  refine ⟨_, _, _, _, train_ofe_ok net htask states actions next_states rewards dones,
    test_ofe_ok net htask states actions next_states rewards dones, ?_⟩
  rw [Metrics.toList_get_three]
  rcases htask with h | h | h <;>
    simp [testMetrics, trainLoss, h, sixMetrics, hfwd]

theorem C7_test_mse_equals_train_loss_witness :
    (∀ b ∈ c3net.state_blocks, ∀ x,
      DensenetBlock.transform b true x = DensenetBlock.transform b false x) ∧
    (∀ b ∈ c3net.action_blocks, ∀ x,
      DensenetBlock.transform b true x = DensenetBlock.transform b false x) ∧
    (c3net.aux_task = "fsp" ∨ c3net.aux_task = "fsdp" ∨ c3net.aux_task = "rwp") ∧
    ∃ l net1 ms net2,
      c3net.train_ofe exObs [[1]] exObs [[1]] [[0]] = .ok (l, net1) ∧
      c3net.test_ofe exObs [[1]] exObs [[1]] [[0]] = .ok (ms, net2) ∧
      ms.get? 3 = some l :=
  ⟨fun b hb => absurd hb (List.not_mem_nil b),
   fun b hb => absurd hb (List.not_mem_nil b),
   Or.inr (Or.inr rfl),
   C7_test_mse_equals_train_loss_mode_indep c3net
     (fun b hb => absurd hb (List.not_mem_nil b))
     (fun b hb => absurd hb (List.not_mem_nil b))
     (Or.inr (Or.inr rfl)) exObs [[1]] exObs [[1]] [[0]]⟩

/-- A future-state-prediction network predicting exactly zero, evaluated on
an all-zero observation: prediction and target coincide exactly, and the
target mean is zero. -/
def c8net : OFENet :=
  { baseNet with dim_state := 2, dim_output := 2,
                 out_layer := ⟨[[0, 0], [0, 0]], [0, 0]⟩ }

/-- A one-key observation batch of one all-zero row of width 2. -/
def z2Obs : Obs := [("o", [[0, 0]])]

/-- C8 counterexample: with task `fsp`, `dim_output = 2` and a batch where
the prediction equals the truncated next-state target exactly (both all
zero), the MAE-ratio metric (index 1) is NOT 0 but NaN: its denominator is
`th.mean(target_states)` with no epsilon (the epsilon appears only in the
MAPE and MSPE denominators), and here that mean is 0, so the six returned
metrics are not all 0. -/
theorem C8_ratio_denominator_counterexample :
    ∃ ms net2, c8net.test_ofe z2Obs [[0]] z2Obs [[0]] [[0]] = .ok (ms, net2) ∧
      ({ c8net with state_model_training := false,
                    action_model_training := false }).forward z2Obs [[0]] =
        btrunc (dictExtract z2Obs) c8net.dim_output ∧
      ms.get? 0 = some (some 0) ∧
      ms.get? 1 = some none ∧
      ms ≠ [some 0, some 0, some 0, some 0, some 0, some 0] := by
  refine ⟨_, _, rfl, ?_, ?_, ?_, ?_⟩ <;>
    norm_num [c8net, baseNet, OFENet.forward, z2Obs, dictExtract, blocksFwdBatch,
      blocksFwd, btrunc, bsub, bsq, babs, baddc, tmean, tsum2, tcount, fdiv,
      Linear.fwd, dot, sixMetrics, Metrics.toList, bdivE, vdivE, catFeatures] <;>
    simp

theorem sixMetrics_self (eps : ℚ) (t : Batch) (c d : ℚ)
    (hmean : tmean t = some c) (hc : c ≠ 0)
    (hsq : tmean (bsq t) = some d) (hd : d ≠ 0)
    (heps : ∀ row ∈ t, ∀ x ∈ row, x + eps ≠ 0) :
    sixMetrics eps t t = ⟨some 0, some 0, some 0, some 0, some 0, some 0⟩ := by
  have hcount : tcount t ≠ 0 := tcount_ne_of_tmean hmean
  have hz : bsub t t = bzero t := bsub_self t
  have hmz : tmean (bzero t) = some 0 := tmean_bzero t hcount
  have hdiv : bdivE (bzero t) (baddc t eps) = some (bzero t) := bdivE_zero t eps heps
  unfold sixMetrics
  simp [hz, babs_bzero, bsq_bzero, hmz, hdiv, hmean, hsq, fdiv, hc, hd]

/-- C8 amended: the epsilon guards only the MAPE and MSPE denominators; the
MAE-ratio and MSE-ratio denominators are the raw `mean(target)` and
`mean(target^2)`.  For task `fsp` with `dim_output = 2`, on a batch where
the prediction equals the truncated next-state target exactly, the six
metrics returned by `test_ofe` all equal 0 provided the target mean and
mean square are nonzero and no target entry equals `-eps`. -/
theorem C8_exact_prediction_all_metrics_zero (net : OFENet) (states : Obs)
    (actions : Batch) (next_states : Obs) (rewards dones : Batch) (c d : ℚ)
    (htask : net.aux_task = "fsp") (hdim : net.dim_output = 2)
    (hpred : ({ net with state_model_training := false,
                         action_model_training := false }).forward states actions =
      btrunc (dictExtract next_states) net.dim_output)
    (hmean : tmean (btrunc (dictExtract next_states) net.dim_output) = some c)
    (hc : c ≠ 0)
    (hsq : tmean (bsq (btrunc (dictExtract next_states) net.dim_output)) = some d)
    (hd : d ≠ 0)
    (heps : ∀ row ∈ btrunc (dictExtract next_states) net.dim_output, ∀ x ∈ row,
      x + net.eps ≠ 0) :
    net.test_ofe states actions next_states rewards dones =
      .ok ([some 0, some 0, some 0, some 0, some 0, some 0],
        { net with state_model_training := true, action_model_training := true,
                   mae_test := some 0, mae_percent_test := some 0, mape_test := some 0,
                   mse_test := some 0, mse_percent_test := some 0, mspe_test := some 0 }) := by
  have hm : testMetrics net states actions next_states rewards =
      ⟨some 0, some 0, some 0, some 0, some 0, some 0⟩ := by
    simp only [testMetrics]
    rw [if_pos htask, hpred]
    exact sixMetrics_self net.eps _ c d hmean hc hsq hd heps
  rw [test_ofe_ok net (Or.inl htask) states actions next_states rewards dones, hm]
  rfl

/-- A future-state-prediction network whose output projection is the
identity on the two state features, so its prediction reproduces the
(unchanged) next observation exactly. -/
def c8wnet : OFENet :=
  { baseNet with dim_state := 2, dim_output := 2,
                 out_layer := ⟨[[1, 0], [0, 1]], [0, 0]⟩ }

/-- A one-key observation batch of one row `[1, 2]`. -/
def t2Obs : Obs := [("o", [[1, 2]])]

theorem C8_exact_prediction_witness :
    c8wnet.aux_task = "fsp" ∧ c8wnet.dim_output = 2 ∧
    ({ c8wnet with state_model_training := false,
                   action_model_training := false }).forward t2Obs [[0]] =
      btrunc (dictExtract t2Obs) c8wnet.dim_output ∧
    c8wnet.test_ofe t2Obs [[0]] t2Obs [[0]] [[0]] =
      .ok ([some 0, some 0, some 0, some 0, some 0, some 0],
        { c8wnet with state_model_training := true, action_model_training := true,
                      mae_test := some 0, mae_percent_test := some 0,
                      mape_test := some 0, mse_test := some 0,
                      mse_percent_test := some 0, mspe_test := some 0 }) := by
  have hpred : ({ c8wnet with state_model_training := false,
                              action_model_training := false }).forward t2Obs [[0]] =
      btrunc (dictExtract t2Obs) c8wnet.dim_output := by
    norm_num [c8wnet, baseNet, OFENet.forward, t2Obs, dictExtract, blocksFwdBatch,
      blocksFwd, btrunc, Linear.fwd, dot, catFeatures]
  have hmean : tmean (btrunc (dictExtract t2Obs) c8wnet.dim_output) = some (3/2) := by
    norm_num [c8wnet, baseNet, t2Obs, dictExtract, btrunc, tmean, tsum2, tcount, fdiv]
  have hsq : tmean (bsq (btrunc (dictExtract t2Obs) c8wnet.dim_output)) = some (5/2) := by
    norm_num [c8wnet, baseNet, t2Obs, dictExtract, btrunc, bsq, tmean, tsum2, tcount, fdiv]
  have heps : ∀ row ∈ btrunc (dictExtract t2Obs) c8wnet.dim_output, ∀ x ∈ row,
      x + c8wnet.eps ≠ 0 := by
    norm_num [c8wnet, baseNet, t2Obs, dictExtract, btrunc]
  exact ⟨rfl, rfl, hpred,
    C8_exact_prediction_all_metrics_zero c8wnet t2Obs [[0]] t2Obs [[0]] [[0]]
      (3/2) (5/2) rfl rfl hpred hmean (by norm_num) hsq (by norm_num) heps⟩

/-- A reward batch of two rows and a matching observation batch: the
network predicts rewards `[[1], [2]]`, the actual rewards are `[[1], [3]]`. -/
def c9obs : Obs := [("o", [[1], [2]])]

/-- C9: for task `rwp`, on a batch where the predicted reward vector is
`[1.0, 2.0]` and the target reward vector is `[1.0, 3.0]`, `test_ofe`
returns the six-element sequence `[MAE, MAE-ratio, MAPE, MSE, MSE-ratio,
MSPE]` with MAE (index 0) = 0.5 and MSE (index 3) = 0.5. -/
theorem C9_rwp_mae_mse_half :
    ∃ ms net2,
      c3net.test_ofe c9obs [[0], [0]] c9obs [[1], [3]] [[0], [0]] = .ok (ms, net2) ∧
      ({ c3net with state_model_training := false,
                    action_model_training := false }).forward c9obs [[0], [0]] =
        [[1], [2]] ∧
      ms.length = 6 ∧
      ms.get? 0 = some (some (1/2)) ∧
      ms.get? 3 = some (some (1/2)) := by
  refine ⟨_, _, rfl, ?_, ?_, ?_, ?_⟩ <;>
    norm_num [c3net, baseNet, OFENet.forward, c9obs, dictExtract, blocksFwdBatch,
      blocksFwd, btrunc, bsub, bsq, babs, baddc, tmean, tsum2, tcount, fdiv,
      Linear.fwd, dot, sixMetrics, Metrics.toList, bdivE, vdivE, catFeatures]

theorem mem_zipWith {α β γ : Type} {f : α → β → γ} {l1 : List α} {l2 : List β}
    {x : γ} (h : x ∈ List.zipWith f l1 l2) :
    ∃ a ∈ l1, ∃ b ∈ l2, x = f a b := by
  induction l1 generalizing l2 with
  | nil => simp at h
  | cons a l1 ih =>
      cases l2 with
      | nil => simp at h
      | cons b l2 =>
          rw [List.zipWith_cons_cons] at h
          rcases List.mem_cons.mp h with h | h
          · exact ⟨a, List.mem_cons_self a l1, b, List.mem_cons_self b l2, h⟩
          · obtain ⟨a2, ha, b2, hb, rfl⟩ := ih h
            exact ⟨a2, List.mem_cons_of_mem a ha, b2, List.mem_cons_of_mem b hb, rfl⟩

theorem blocksFwd_length (bs : List DensenetBlock) (m : Bool) (x : Vec) :
    (blocksFwd bs m x).length =
      x.length + (bs.map DensenetBlock.units_per_layer).sum := by
  induction bs generalizing x with
  | nil => simp [blocksFwd]
  | cons b bs ih =>
      rw [blocksFwd_cons, ih]
      simp [DensenetBlock.fwd, b.transform_len]
      omega

theorem blocks_units_sum (num_layers u : ℕ) (mkBlock : ℕ → DensenetBlock)
    (hmk : ∀ v, (mkBlock v).units_per_layer = v) :
    (((List.replicate num_layers u).map mkBlock).map
      DensenetBlock.units_per_layer).sum = num_layers * u := by
  simp [List.map_replicate, hmk, List.sum_replicate, smul_eq_mul]

/-- C2: for a successfully constructed network (block factory honoring the
per-layer width contract), on observation batches whose flattened width is
the declared `dim_state` and action batches of width `dim_action`:
`dim_state_features` equals the flattened width plus `total_units` and is
the exact width of every `features_from_states` output row, and
`dim_state_action_features` equals the `features_from_states` width plus
`dim_action` plus `total_units` and is the exact width of every
`features_from_states_actions` output row. -/
theorem C2_feature_widths
    (dim_state dim_action dim_output total_units num_layers : ℕ) (aux_task : String)
    (skip : Bool) (mkBlock : ℕ → DensenetBlock) (out0 : Linear) (net : OFENet)
    (hinit : OFENet.init dim_state dim_action dim_output total_units num_layers
      aux_task skip mkBlock out0 = .ok net)
    (hmk : ∀ u, (mkBlock u).units_per_layer = u)
    (states : Obs) (actions : Batch)
    (hobs : ∀ row ∈ dictExtract states, row.length = dim_state)
    (hact : ∀ row ∈ actions, row.length = dim_action) :
    net.dim_state_features = dim_state + net.total_units ∧
    net.dim_state_action_features =
      net.dim_state_features + dim_action + net.total_units ∧
    (∀ row ∈ (net.features_from_states states).1,
      row.length = net.dim_state_features) ∧
    (∀ row ∈ (net.features_from_states_actions states actions).1,
      row.length = net.dim_state_action_features) := by
  unfold OFENet.init at hinit
  rcases hcalc : calculate_layer_units dim_state dim_action total_units num_layers
    with e | ⟨su, au⟩ <;> rw [hcalc] at hinit
  · exact absurd hinit (by simp)
  unfold calculate_layer_units at hcalc
  by_cases hnl : num_layers = 0
  · rw [if_pos hnl] at hcalc; exact absurd hcalc (by simp)
  rw [if_neg hnl] at hcalc
  by_cases hdvd : total_units % num_layers = 0
  swap
  · rw [if_neg hdvd] at hcalc; exact absurd hcalc (by simp)
  rw [if_pos hdvd] at hcalc
  injection hcalc with hpair
  injection hpair with hsu hau
  subst hsu; subst hau
  injection hinit with hnet
  subst hnet
  have htu : num_layers * (total_units / num_layers) = total_units :=
    Nat.mul_div_cancel' (Nat.dvd_of_mod_eq_zero hdvd)
  have hsum := blocks_units_sum num_layers (total_units / num_layers) mkBlock hmk
  refine ⟨?_, ?_, ?_, ?_⟩
  · simp [OFENet.dim_state_features]; omega
  · simp [OFENet.dim_state_action_features, OFENet.dim_state_features]
  · intro row hrow
    simp only [OFENet.features_from_states, blocksFwdBatch, List.mem_map] at hrow
    obtain ⟨r, hr, rfl⟩ := hrow
    rw [blocksFwd_length]
    simp only [OFENet.dim_state_features]
    rw [hobs r hr, hsum]
    omega
  · intro row hrow
    simp only [OFENet.features_from_states_actions, OFENet.features_from_states,
      blocksFwdBatch, catFeatures, List.mem_map] at hrow
    obtain ⟨r, hr, rfl⟩ := hrow
    obtain ⟨u, hu, v, hv, rfl⟩ := mem_zipWith hr
    obtain ⟨w, hw, rfl⟩ := List.mem_map.mp hu
    rw [blocksFwd_length]
    simp only [OFENet.dim_state_action_features, List.length_append]
    rw [blocksFwd_length, hobs w hw, hact v hv, hsum]
    omega

/-- A two-key observation batch whose flattened width is 2. -/
def c2obs : Obs := [("a", [[1]]), ("b", [[2]])]

theorem C2_feature_widths_witness :
    (∀ u, (constBlock u).units_per_layer = u) ∧
    (∀ row ∈ dictExtract c2obs, row.length = 2) ∧
    (∀ row ∈ [[(5 : ℚ)]], row.length = 1) ∧
    ∃ net, OFENet.init 2 1 1 2 1 "fsp" false constBlock ⟨[[1]], [0]⟩ = .ok net ∧
      net.dim_state_features = 2 + net.total_units ∧
      net.dim_state_action_features = net.dim_state_features + 1 + net.total_units ∧
      (∀ row ∈ (net.features_from_states c2obs).1,
        row.length = net.dim_state_features) ∧
      (∀ row ∈ (net.features_from_states_actions c2obs [[5]]).1,
        row.length = net.dim_state_action_features) := by
  have h := C2_feature_widths 2 1 1 2 1 "fsp" false constBlock ⟨[[1]], [0]⟩ _ rfl
    (fun u => rfl) c2obs [[5]] (by decide) (by decide)
  exact ⟨fun u => rfl, by decide, by decide, _, rfl, h.1, h.2.1, h.2.2.1, h.2.2.2⟩
